import Mathlib

/-!
Verification of the repository-documentation pipeline in `src/main.py`
(class `RepositoryDocumenter`).

Python strings are embedded as `List Char` (abbreviated `Str`); Python
`None`-able values as `Option`; the Ollama HTTP boundary and the LLM itself
as explicit oracles passed to the embedded functions.  Each definition below
names the source function (or the source lines) it translates.

A note on the template literals: the README template (lines 562-693) and the
per-file prompt template (lines 398-428) of `main.py` are Python f-strings.
Inside an f-string the source text `\x7b\x7b` denotes one literal `\x7b`
character and `\x7d\x7d` one literal `\x7d`, so the placeholder tokens that
are written with doubled braces in the source occur with single braces in
the runtime string values.  The embedded literals below spell out the
runtime values (braces written with \x7b / \x7d escapes).
-/

namespace ScanRepo

/-- Python `str` modelled as a list of characters. -/
abbrev Str := List Char

/-- Python substring test `t in s` (`if "…" in final_readme`, lines 723/736/747). -/
def strContains (t : Str) : Str → Bool
  | [] => t.isEmpty
  | x :: s => t.isPrefixOf (x :: s) || strContains t s

/-- Fuel-driven worker for `pyReplace`; the fuel starts at the length of the
subject string, which bounds the number of scanning steps, so the `0, s`
case is never reached on the initial call. -/
def pyReplaceGo (t r : Str) : Nat → Str → Str
  | _, [] => []
  | 0, s => s
  | fuel + 1, x :: s =>
    if t.isPrefixOf (x :: s) && !t.isEmpty then
      r ++ pyReplaceGo t r fuel ((x :: s).drop t.length)
    else
      x :: pyReplaceGo t r fuel s

/-- Python `s.replace(t, r)`: replaces every non-overlapping occurrence of
the non-empty pattern `t`, scanning left to right; the replacement text is
not rescanned (used at lines 438, 734, 737, 751, 755 of `main.py`). -/
def pyReplace (t r s : Str) : Str := pyReplaceGo t r s.length s

/-- Python `str.lower()` (ASCII-relevant part, enough for the data that
flows through `main.py`: extensions and language labels). -/
def pyLower (s : Str) : Str := s.map Char.toLower

/-- Python `str.strip()` (whitespace strip at line 363). -/
def pyStrip (s : Str) : Str :=
  ((s.dropWhile Char.isWhitespace).reverse.dropWhile Char.isWhitespace).reverse

/-- Python `s.split(c)` for a one-character separator (line 353). -/
def pySplitChar (c : Char) : Str → List Str
  | [] => [[]]
  | x :: s =>
    if x = c then [] :: pySplitChar c s
    else
      match pySplitChar c s with
      | [] => [[x]]
      | h :: tl => (x :: h) :: tl

/-- Composition of `os.path.join` and `os.path.relpath` as used by `_scan_repository`
(lines 206-207): the repository-relative path of entry `nm` inside the
directory whose relative path is `rel` (POSIX separator). -/
def joinRel (rel nm : Str) : Str := if rel.isEmpty then nm else rel ++ '/' :: nm

/-- Python `os.path.splitext(name)[1]` on a base name (line 208): the extension
starts at the last dot, except that a leading run of dots is part of the
file name (so `.gitignore` has extension `""`). -/
def splitextExt (name : Str) : Str :=
  let rev := name.reverse
  let afterDot := rev.takeWhile (fun c => c ≠ '.')
  if afterDot.length = rev.length then []
  else
    let beforeDot := name.take (name.length - afterDot.length - 1)
    if beforeDot.any (fun c => c ≠ '.') then '.' :: afterDot.reverse else []

/-- Decimal rendering `f"{n}"` of a natural number. -/
def natStr (n : Nat) : Str := (Nat.repr n).data

/-- The chunk size used by `analyze_file` (`max_chunk_size = 5000`, line 430). -/
def maxChunkSize : Nat := 5000

/-- The chunk split of `analyze_file` (line 432):
`[content[i:i+C] for i in range(0, len(content), C)]`.
Python's `range(0, L, C)` yields `k*C` for `k < ⌈L/C⌉`, and the slice
`content[i:i+C]` is `take C (drop i content)`. -/
def chunksOf (c : Nat) (l : Str) : List Str :=
  (List.range ((l.length + c - 1) / c)).map (fun k => (l.drop (k * c)).take c)

/-!  ## Language Model Client (`analyze_with_llm`, lines 332-382)

The HTTP exchange is modelled by an oracle `post` mapping the request that
the client builds to one of four outcomes, mirroring the `try/except`
structure of `analyze_with_llm`:

* `netFailure`  — `requests.post` raises a `RequestException`
  (connection error or timeout), caught at line 364;
* `badStatus`   — non-2xx response: `raise_for_status()` raises `HTTPError`
  (a `RequestException`), caught at line 364;
* `badJson`     — `response.json()` raises `JSONDecodeError`, caught at 371;
* `okJson`      — a parsed JSON object, modelled as a string-valued
  association list; the client returns `result.get("response", "").strip()`.

Each `except` arm only logs and returns `""`; totality of the embedded
function is the model of "does not raise to its caller".
-/

/-- The request body assembled at lines 346-355 (`model`, `prompt`,
`stream: False`, optional `format` from the mime type's final `/`-segment,
optional `options.response_schema`; the schema's shape is irrelevant to the
client, hence a type parameter). -/
structure OllamaRequest (σ : Type) where
  modelName : Str
  prompt : Str
  stream : Bool
  format : Option Str
  options : Option σ

/-- Outcome of one `requests.post` call, as observed by `analyze_with_llm`. -/
inductive HttpResult where
  | netFailure : HttpResult
  | badStatus : Nat → Str → HttpResult
  | badJson : Str → HttpResult
  | okJson : List (Str × Str) → HttpResult

/-- Request construction of `analyze_with_llm` (lines 346-355);
`response_mime_type.split('/')[-1]` is the last `/`-segment. -/
def buildOllamaRequest {σ : Type} (modelName prompt : Str) (mime : Option Str)
    (schema : Option σ) : OllamaRequest σ :=
  { modelName := modelName
    prompt := prompt
    stream := false
    format := mime.map (fun m => (pySplitChar '/' m).getLastD [])
    options := schema }

/-- Classification of the failure arms of `analyze_with_llm`. -/
def isHttpFailure : HttpResult → Bool
  | .okJson _ => false
  | _ => true

/-- Function `analyze_with_llm` (lines 332-382): builds the request, posts it, and
returns `result.get("response", "").strip()` on success and `""` on each
failure arm. -/
def analyzeWithLlm {σ : Type} (post : OllamaRequest σ → HttpResult)
    (modelName prompt : Str) (mime : Option Str) (schema : Option σ) : Str :=
  match post (buildOllamaRequest modelName prompt mime schema) with
  | .okJson fields => pyStrip ((fields.lookup ("response".data)).getD [])
  | .netFailure => []
  | .badStatus _ _ => []
  | .badJson _ => []

/-!  ## File descriptors and scanner tables (lines 36-74, 189-220) -/

/-- One file descriptor, the dict built by `_scan_repository` (lines 210-216).
`content` models the result of `_read_file_content` (`None` when the file
is unreadable).  `combineMessage` models the `_combine_message` key that
`analyze_file` adds at line 463: `none` means the key is absent (as emitted
by the scanner), `some v` means the key is present with value `v`
(`v = none` is Python `None`). -/
structure FileInfo where
  path : Str
  extension : Str
  language : Str
  content : Option Str
  analysis : Option Str
  combineMessage : Option (Option Str)
deriving DecidableEq

/-- List `self.ignore_dirs` (line 37). -/
def ignoreDirs : List Str :=
  [".git".data, "__pycache__".data, "node_modules".data, "venv".data,
   "env".data, ".idea".data, ".vscode".data, ".github".data]

/-- List `self.ignore_files` (line 38). -/
def ignoreFiles : List Str :=
  [".gitignore".data, "README.md".data, "LICENSE".data,
   "CONTRIBUTING.md".data, "CODE_OF_CONDUCT.md".data]

/-- Table `self.file_extensions` (lines 41-74). -/
def fileExtensions : List (Str × Str) :=
  [(".py".data, "Python".data), (".js".data, "JavaScript".data),
   (".ts".data, "TypeScript".data), (".java".data, "Java".data),
   (".kt".data, "Kotlin".data), (".go".data, "Go".data),
   (".rs".data, "Rust".data), (".rb".data, "Ruby".data),
   (".php".data, "PHP".data), (".sh".data, "Bash".data),
   (".md".data, "Markdown".data), (".html".data, "HTML".data),
   (".css".data, "CSS".data), (".scss".data, "SASS".data),
   (".json".data, "JSON".data), (".yml".data, "YAML".data),
   (".yaml".data, "YAML".data), (".toml".data, "TOML".data),
   (".dockerfile".data, "Docker".data), (".sql".data, "SQL".data),
   (".c".data, "C".data), (".cpp".data, "C++".data),
   (".h".data, "C/C++ Header".data), (".hpp".data, "C++ Header".data),
   (".cs".data, "C#".data), (".swift".data, "Swift".data),
   (".r".data, "R".data), (".pl".data, "Perl".data),
   (".lua".data, "Lua".data), (".vue".data, "Vue.js".data),
   (".jsx".data, "React JSX".data), (".tsx".data, "React TSX".data)]

/-!  ## Repository trees and the three `os.walk` traversals

A directory holds an ordered sequence of entries.  `os.walk` presents each
directory's subdirectory names and file names as two separate lists and
yields the directory itself before recursing into its (possibly pruned)
subdirectories in order; accordingly every traversal below first collects
the file entries of a node, then recurses into its subdirectory entries.
A file entry carries the result of reading the file (`none` = unreadable),
standing for `_read_file_content` (lines 222-247). -/

mutual
inductive FsDir where
  | node : FsEntries → FsDir
inductive FsEntries where
  | nil : FsEntries
  | file : Str → Option Str → FsEntries → FsEntries
  | sub : Str → FsDir → FsEntries → FsEntries
end

/-- The descriptor `_scan_repository` builds for one file (lines 210-216). -/
def mkFileInfo (rel nm : Str) (content : Option Str) : FileInfo :=
  { path := joinRel rel nm
    extension := pyLower (splitextExt nm)
    language := (fileExtensions.lookup (pyLower (splitextExt nm))).getD ("Unknown".data)
    content := content
    analysis := none
    combineMessage := none }

/-- File entries of one directory as seen by `_scan_repository`
(lines 202-218): names in `ignore_files` are skipped. -/
def scanHere (rel : Str) : FsEntries → List FileInfo
  | .nil => []
  | .file nm c rest =>
    (if nm ∈ ignoreFiles then [] else [mkFileInfo rel nm c]) ++ scanHere rel rest
  | .sub _ _ rest => scanHere rel rest

mutual
/-- Walk of `_scan_repository` over one directory (lines 199-218). -/
def scanDir (rel : Str) : FsDir → List FileInfo
  | .node es => scanHere rel es ++ scanSubs rel es
/-- Descent of `_scan_repository` into subdirectories, with the in-place
pruning `dirs[:] = [d for d in dirs if d not in self.ignore_dirs]`
(line 200) applied before descending. -/
def scanSubs (rel : Str) : FsEntries → List FileInfo
  | .nil => []
  | .file _ _ rest => scanSubs rel rest
  | .sub nm d rest =>
    (if nm ∈ ignoreDirs then [] else scanDir (joinRel rel nm) d) ++ scanSubs rel rest
end

/-- Method `_scan_repository` (lines 189-220). -/
def scanRepository (repo : FsDir) : List FileInfo := scanDir [] repo

/-- The files `_get_language_stats` tallies in one directory
(lines 305-309): every file whose lowercased extension is a key of
`file_extensions` — the `ignore_files` list is not consulted.  Each tallied
file is recorded as its (relative path, language) pair; the stats loop
itself only uses the language component. -/
def statsHere (rel : Str) : FsEntries → List (Str × Str)
  | .nil => []
  | .file nm _ rest =>
    (match fileExtensions.lookup (pyLower (splitextExt nm)) with
     | some lang => [(joinRel rel nm, lang)]
     | none => []) ++ statsHere rel rest
  | .sub _ _ rest => statsHere rel rest

mutual
/-- Walk of `_get_language_stats` over one directory (lines 302-309). -/
def statsDir (rel : Str) : FsDir → List (Str × Str)
  | .node es => statsHere rel es ++ statsSubs rel es
/-- Descent of `_get_language_stats`, with the same `ignore_dirs` pruning
as the scanner (line 303). -/
def statsSubs (rel : Str) : FsEntries → List (Str × Str)
  | .nil => []
  | .file _ _ rest => statsSubs rel rest
  | .sub nm d rest =>
    (if nm ∈ ignoreDirs then [] else statsDir (joinRel rel nm) d) ++ statsSubs rel rest
end

/-- The relative paths of the files `_get_language_stats` tallies. -/
def talliedPaths (repo : FsDir) : List Str := (statsDir [] repo).map Prod.fst

/-- Update `stats[lang] = stats.get(lang, 0) + 1` on an insertion-ordered dict
(line 309): an existing key is bumped in place, a new key appended. -/
def dictBump : List (Str × Nat) → Str → List (Str × Nat)
  | [], lang => [(lang, 1)]
  | (k, v) :: rest, lang =>
    if k = lang then (k, v + 1) :: rest else (k, v) :: dictBump rest lang

/-- Method `_get_language_stats` (lines 293-311): the walk's language sequence
folded through the dict update. -/
def languageStats (repo : FsDir) : List (Str × Nat) :=
  ((statsDir [] repo).map Prod.snd).foldl dictBump []

/-- Files of one directory as rendered by the project-structure block of
`_postprocess_readme` (lines 730-732): names in `ignore_files` are
skipped.  Recorded by relative path to identify the rendered file. -/
def treeHere (rel : Str) : FsEntries → List Str
  | .nil => []
  | .file nm _ rest =>
    (if nm ∈ ignoreFiles then [] else [joinRel rel nm]) ++ treeHere rel rest
  | .sub _ _ rest => treeHere rel rest

mutual
/-- The files rendered in the directory-tree walk of `_postprocess_readme`
(lines 725-732): this `os.walk` applies no `ignore_dirs` pruning. -/
def treeFilesDir (rel : Str) : FsDir → List Str
  | .node es => treeHere rel es ++ treeFilesSubs rel es
def treeFilesSubs (rel : Str) : FsEntries → List Str
  | .nil => []
  | .file _ _ rest => treeFilesSubs rel rest
  | .sub nm d rest => treeFilesDir (joinRel rel nm) d ++ treeFilesSubs rel rest
end

/-- The set (list) of files the rendered directory tree shows. -/
def treeFilePaths (repo : FsDir) : List Str := treeFilesDir [] repo

/-- Indentation `' ' * 4 * level` (lines 727/729). -/
def indentSp (n : Nat) : Str := List.replicate (4 * n) ' '

/-- The file lines the structure block prints for one directory
(lines 730-732), at indentation `level`. -/
def treeFileLines (level : Nat) : FsEntries → Str
  | .nil => []
  | .file nm _ rest =>
    (if nm ∈ ignoreFiles then [] else indentSp level ++ nm ++ ['\n']) ++
      treeFileLines level rest
  | .sub _ _ rest => treeFileLines level rest

mutual
/-- One directory's contribution to `project_structure_str`
(lines 725-732): the directory line `{indent}{basename(root)}/`, its file
lines one level deeper, then all subdirectories (no pruning). -/
def treeStrDir (nm : Str) (level : Nat) : FsDir → Str
  | .node es =>
    indentSp level ++ nm ++ "/\n".data ++ treeFileLines (level + 1) es ++
      treeStrSubs level es
def treeStrSubs (level : Nat) : FsEntries → Str
  | .nil => []
  | .file _ _ rest => treeStrSubs level rest
  | .sub nm d rest => treeStrDir nm (level + 1) d ++ treeStrSubs level rest
end

/-- String `project_structure_str` (lines 724-733): the fenced tree block; the top
directory line shows the repository directory's base name. -/
def projectStructureStr (repoDirName : Str) (repo : FsDir) : Str :=
  "```\n".data ++ treeStrDir repoDirName 0 repo ++ "```\n".data

/-!  ## Per-File Analyzer (`analyze_file`, lines 384-464)

The LLM is an oracle `llm : Str → Str` mapping a prompt to the string that
`analyze_with_llm` returns for it (the empty string being the client's
failure sentinel).  `analyzeFile` returns the updated descriptor together
with the trace of prompts sent, in call order. -/

/-- Python truthiness of `file_info["content"]` at line 395: falsy iff
`None` or the empty string. -/
def contentFalsy : Option Str → Bool
  | none => true
  | some s => s.isEmpty

/-- The low-value language list of line 395, in source order. -/
def skipLanguages : List Str :=
  ["Unknown".data, "JSON".data, "YAML".data, "TOML".data, "Markdown".data]

/-- The skip condition of line 395:
`not file_info["content"] or file_info["language"] in [...]`. -/
def skipAnalysis (f : FileInfo) : Bool :=
  contentFalsy f.content || skipLanguages.contains f.language

/-- Segment of the per-file prompt f-string (lines 398-428) before the
`file_info["path"]` interpolation.  Being an f-string, the doubled braces
of the source denote single literal braces in this value. -/
def filePromptA : Str :=
  ("\n        Ты - опытный тимлид и главный архитектор проекта. Твоя задача - проанализировать предоставленный фрагмент кода и предоставить информацию в следующем формате, используя русский язык и markdown разметку.\n        Будь точным, лаконичным и максимально полезным для понимания проекта.\n        **Особое внимание удели основной ЦЕЛИ и РОЛИ этого файла в контексте всего проекта, как будто ты объясняешь это новому члену команды.**\n        **Избегай любых формулировок, которые могли бы намекнуть на то, что текст сгенерирован ИИ. Пиши естественно, как человек.**\n        \n        Пример желаемого тона и стиля:\n        \"Этот файл - сердце нашего модуля аутентификации. Здесь мы не только обрабатываем входные данные пользователя, но и обеспечиваем безопасность сессий. Важно понимать, что каждое изменение здесь влияет на общую стабильность системы.\"\n\n        ### Назначение файла\n        Краткое описание на русском языке (1-2 предложения), объясняющее основную цель и роль файла в контексте проекта. Например: \"Этот файл отвечает за маршрутизацию HTTP-запросов\", \"Здесь реализована бизнес-логика для обработки заказов\", \"Этот модуль содержит утилитарные функции для работы с датами\".\n\n        ### Основные компоненты\n        - **Классы**: Список названий классов, определенных в файле, с очень кратким описанием каждого.\n        - **Функции/Методы**: Список названий функций или методов, определенных в файле, с очень кратким описанием каждого.\n        - **Переменные/Константы**: Список ключевых глобальных переменных или констант, определенных в файле, с очень кратким описанием.\n\n        ### Зависимости\n        Список внешних библиотек, модулей или фреймворков, которые импортируются или используются в файле.\n\n        ### Дополнительная информация\n        Любая другая полезная информация, например, паттерны проектирования, особенности реализации, потенциальные проблемы или важные комментарии.\n\n        ---\n        Файл: ").data

/-- Segment between the path and language interpolations (lines 422-423). -/
def filePromptB : Str := "\n        Язык: ".data

/-- Segment between the language and the fenced-code interpolation
(lines 424-425). -/
def filePromptC : Str := "\n        Содержимое файла:\n        ```".data

/-- Tail of the prompt template (lines 425-428).  The f-string source
`\x7b\x7bchunk_content\x7d\x7d` denotes the single-braced literal below. -/
def filePromptD : Str :=
  "\n        \x7bchunk_content\x7d\n        ```\n        ".data

/-- Template `prompt_template` (lines 398-428), an f-string over the descriptor's
path and language (`language.lower().replace(' ', '')` in the fence). -/
def filePrompt (f : FileInfo) : Str :=
  filePromptA ++ f.path ++ filePromptB ++ f.language ++ filePromptC ++
    pyReplace (" ".data) [] (pyLower f.language) ++ filePromptD

/-- The pattern `"\x7b\x7bchunk_content\x7d\x7d"` that line 438 searches for —
a plain (non-f) string, hence doubled braces.  It does not occur in the
template value, whose placeholder is single-braced. -/
def chunkContentTok : Str := "\x7b\x7bchunk_content\x7d\x7d".data

/-- The per-chunk prompts of `analyze_file` (lines 430-438), in chunk
order: `prompt_template.replace("\x7b\x7bchunk_content\x7d\x7d", chunk)`. -/
def chunkPromptsOf (f : FileInfo) : List Str :=
  (chunksOf maxChunkSize (f.content.getD [])).map
    (fun ch => pyReplace chunkContentTok ch (filePrompt f))

/-- List `analysis_results` (lines 434-443): the non-empty LLM answers to the
chunk prompts, in original chunk order. -/
def chunkResultsOf (llm : Str → Str) (f : FileInfo) : List Str :=
  ((chunkPromptsOf f).map llm).filter (fun r => !r.isEmpty)

/-- The consolidation prompt f-string (lines 447-456) before the
`chr(10).join(analysis_results)` interpolation. -/
def combinePromptHead : Str :=
  ("\n            Ты получил несколько частей анализа одного и того же файла. Объедини их в единый связный анализ, \n            сохраняя структуру: \"Назначение файла\", \"Основные компоненты\", \"Зависимости\", \"Дополнительная информация\".\n            **Особое внимание удели основной ЦЕЛИ и РОЛИ этого файла в контексте всего проекта, как будто ты объясняешь это новому члену команды.**\n            **Избегай любых формулировок, которые могли бы намекнуть на то, что текст сгенерирован ИИ. Пиши естественно, как человек.**\n            Убедись, что информация не дублируется и представлена лаконично.\n\n            Части анализа:\n            ").data

/-- The consolidation prompt f-string after the interpolation (line 456). -/
def combinePromptSuffix : Str := "\n            ".data

/-- Prompt `combine_prompt` (lines 447-456) for the given partial analyses. -/
def combinePromptOf (rs : List Str) : Str :=
  combinePromptHead ++ List.intercalate ("\n".data) rs ++ combinePromptSuffix

/-- Message `combine_message` (line 446):
`f"Объединяем {len(analysis_results)} частей анализа для {path}"`. -/
def combineMessageOf (n : Nat) (path : Str) : Str :=
  "Объединяем ".data ++ natStr n ++ " частей анализа для ".data ++ path

/-- The fixed failure placeholder of line 461. -/
def failedAnalysisText : Str := "Не удалось получить анализ файла.".data

/-- Method `analyze_file` (lines 384-464).  Returns the updated descriptor and the
trace of prompts sent to `analyze_with_llm`.  The skip branch (line 395-396)
returns the descriptor untouched with no calls.  Otherwise the chunk
prompts are sent; with more than one non-empty result one consolidation
call is issued and its response stored (line 457), with exactly one it is
stored verbatim (line 459), with none the fixed placeholder (line 461);
line 463 then adds the `_combine_message` key (Python `None` except in the
consolidation branch). -/
def analyzeFile (llm : Str → Str) (f : FileInfo) : FileInfo × List Str :=
  if skipAnalysis f then (f, [])
  else
    match chunkResultsOf llm f with
    | r1 :: r2 :: rest =>
      ({ f with
          analysis := some (llm (combinePromptOf (r1 :: r2 :: rest)))
          combineMessage :=
            some (some (combineMessageOf (r1 :: r2 :: rest).length f.path)) },
        chunkPromptsOf f ++ [combinePromptOf (r1 :: r2 :: rest)])
    | [r] =>
      ({ f with analysis := some r, combineMessage := some none },
        chunkPromptsOf f)
    | [] =>
      ({ f with analysis := some failedAnalysisText, combineMessage := some none },
        chunkPromptsOf f)

/-!  ## Project Summary Synthesizer (`generate_readme`, lines 495-559)

`json.loads(json_content_str)` either yields a parsed object or raises
`JSONDecodeError`; the outcome is modelled as `Option` of a string-valued
association list (the seven schema fields are strings).  The `except` arm
(lines 547-559) substitutes the complete fallback dict. -/

/-- The `required` key list of the response schema (lines 507-515). -/
def sectionKeys : List Str :=
  ["project_description".data, "project_overview_content".data,
   "features_content".data, "technologies_content".data,
   "installation_content".data, "usage_examples_content".data,
   "project_structure_description".data]

/-- The complete fallback object substituted on `JSONDecodeError`
(lines 551-559). -/
def fallbackSections : List (Str × Str) :=
  [("project_description".data, "Не удалось сгенерировать описание проекта.".data),
   ("project_overview_content".data, "Не удалось сгенерировать обзор проекта.".data),
   ("features_content".data, "Не удалось сгенерировать функциональные возможности.".data),
   ("technologies_content".data, "Не удалось сгенерировать технологический стек.".data),
   ("installation_content".data, "Не удалось сгенерировать инструкции по установке.".data),
   ("usage_examples_content".data, "Не удалось сгенерировать примеры использования.".data),
   ("project_structure_description".data, "Не удалось сгенерировать описание структуры проекта.".data)]

/-- Value `generated_sections` (lines 545-559): the parsed object when
`json.loads` succeeds (used as-is, whatever keys it has), the complete
fallback object when it raises. -/
def loadSections : Option (List (Str × Str)) → List (Str × Str)
  | some d => d
  | none => fallbackSections

/-- Python `generated_sections.get(k, dflt)` as used at lines 636-664. -/
def sectGet (d : List (Str × Str)) (k dflt : Str) : Str := (d.lookup k).getD dflt

/-!  ## Document Renderer (`generate_readme` lines 562-695 and
`_postprocess_readme` lines 715-757)

`readme_template_content` is assembled from two f-strings plus the devicon
loop and the badge block.  Because they are f-strings, the
`\x7b\x7b…\x7d\x7d` placeholders of the source occur single-braced in the
assembled value — the literals below are the runtime values. -/

/-- The first template f-string (lines 562-596) up to the
`repo_info["name"]` interpolation. -/
def headerPartA : Str :=
  ("\n<p align=\"center\"><img src=\"https://i.gifer.com/GwyA.gif\" width=\"200\"/></p>\n<h3 align=\"center\">check out my channels</h3>\n<div id=\"badges\" align=\"center\">\n    <a href=\"http://t.me/+13262155064\">\n        <img src=\"https://w7.pngwing.com/pngs/1/41/png-transparent-telegram-button-icon.png\" alt=\"telegram Badge\" height=\"30px\"/>\n    </a>\n    <a href=\"https://www.youtube.com/@Mr.Helperus\">\n        <img src=\"https://img.shields.io/badge/YouTube-red?style=for-the-badge&logo=youtube&logoColor=white\" alt=\"YouTube Badge\"/>\n    </a>\n    <a href=\"https://www.tiktok.com/@4elobrek9_original\">\n        <img src=\"https://w7.pngwing.com/pngs/262/918/png-transparent-tiktok-button-icon.png\" alt=\"TikTok Badge\" height=\"30px\" />\n    </a>\n    <a href=\"https://discord.gg/qsvPPE9YvJ\">\n        <img src=\"https://encrypted-tbn0.gstatic.com/images?q=tbn:ANd9GcTl21OxPjOzA5qABz2Hle_7SoOxtIoOOsHXBQ&s\" alt=\"Discord Badge\" height=\"35px\"/>\n    </a>\n</div>\n</p>\n<p align=\"center\"><img src=\"https://komarev.com/ghpvc/?username=4elobre9&style=flat-square&color=blue\" alt=\"\"></p>\n<h1 align=\"center\">読者の皆さん、こんにちは。 <img src=\"https://media.giphy.com/media/hvRJCLFzcasrR4ia7z/giphy.gif\" width=\"40\"></h1>\n<p align=\"center\"><img src=\"https://cdna.artstation.com/p/assets/images/images/028/102/058/original/pixel-jeff-matrix-s.gif?1593487263\" width=\"600\" height=\"300\" /></p>\n\n### :woman_technologist: About Me :\nЯ Full Stack разработчик.\n- 🔱 Я работаю инженером-программистом и вношу свой вклад во фронтенд для создания веб-приложений. <img src=\"h\" alt=\"\" height=\"20px\" />\n- ⚙️ Я пишу ботов для Discord и их бэкенд-примеры на своем Discord сервере. <a href=\"https://discord.gg/qsvPPE9YvJ\">\n        <img src=\"https://encrypted-tbn0.gstatic.com/images?q=tbn:ANd9GcTT4je-CowV-arhhLNwE84rd___C9IiS1-gHPxB_mM1oqbsAJEeX71iH5QHBZ28EhFhf68&usqp=CAU\" alt=\"\" height=\"20px\" />\n    </a>\n- ⚡ В свободное время я решаю задачи на GeeksforGeeks и прокачиваю свой мозг.\n\n---\n\n# ").data

/-- Lines 562-596: header part of the template, ending `# {name}\n<p>\n`. -/
def headerPart (repoName : Str) : Str := headerPartA ++ repoName ++ "\n<p>\n".data

/-- Table `devicon_map` (lines 598-621). -/
def deviconMap : List (Str × Str) :=
  [("Python".data, "https://github.com/devicons/devicon/blob/master/icons/python/python-original.svg?raw=true".data),
   ("JavaScript".data, "https://github.com/devicons/devicon/blob/master/icons/javascript/javascript-original.svg?raw=true".data),
   ("TypeScript".data, "https://github.com/devicons/devicon/blob/master/icons/typescript/typescript-original.svg?raw=true".data),
   ("Java".data, "https://github.com/devicons/devicon/blob/master/icons/java/java-original-wordmark.svg?raw=true".data),
   ("Go".data, "https://github.com/devicons/devicon/blob/master/icons/go/go-original.svg?raw=true".data),
   ("Rust".data, "https://github.com/devicons/devicon/blob/master/icons/rust/rust-plain.svg?raw=true".data),
   ("Ruby".data, "https://github.com/devicons/devicon/blob/master/icons/ruby/ruby-original.svg?raw=true".data),
   ("PHP".data, "https://github.com/devicons/devicon/blob/master/icons/php/php-original.svg?raw=true".data),
   ("HTML".data, "https://github.com/devicons/devicon/blob/master/icons/html5/html5-original.svg?raw=true".data),
   ("CSS".data, "https://github.com/devicons/devicon/blob/master/icons/css3/css3-plain-wordmark.svg?raw=true".data),
   ("React JSX".data, "https://github.com/devicons/devicon/blob/master/icons/react/react-original.svg?raw=true".data),
   ("Vue.js".data, "https://github.com/devicons/devicon/blob/master/icons/vuejs/vuejs-original.svg?raw=true".data),
   ("NodeJS".data, "https://github.com/devicons/devicon/blob/master/icons/nodejs/nodejs-original.svg?raw=true".data),
   ("MySQL".data, "https://github.com/devicons/devicon/blob/master/icons/mysql/mysql-original-wordmark.svg?raw=true".data),
   ("Git".data, "https://github.com/devicons/devicon/blob/master/icons/git/git-original-wordmark.svg?raw=true".data),
   ("Spring".data, "https://github.com/devicons/devicon/blob/master/icons/spring/spring-original-wordmark.svg?raw=true".data),
   ("Material UI".data, "https://github.com/devicons/devicon/blob/master/icons/materialui/materialui-original.svg?raw=true".data),
   ("Flutter".data, "https://github.com/devicons/devicon/blob/master/icons/flutter/flutter-original.svg?raw=true".data),
   ("Redux".data, "https://github.com/devicons/devicon/blob/master/icons/redux/redux-original.svg?raw=true".data),
   ("Gatsby".data, "https://github.com/devicons/devicon/blob/master/icons/gatsby/gatsby-original.svg?raw=true".data),
   ("AWS".data, "https://github.com/devicons/devicon/blob/master/icons/amazonwebservices/amazonwebservices-plain-wordmark.svg?raw=true".data),
   ("Postman".data, "https://www.vectorlogo.zone/logos/getpostman/getpostman-icon.svg".data)]

/-- One devicon image tag of line 624. -/
def imgTag (url lang : Str) : Str :=
  "<img src=\"".data ++ url ++ "\" title=\"".data ++ lang ++ "\" alt=\"".data ++
    lang ++ "\" width=\"40\" height=\"40\"/> ".data

/-- The devicon loop (lines 622-624) over the insertion-ordered stats dict. -/
def deviconPart (stats : List (Str × Nat)) : Str :=
  stats.foldl
    (fun acc p =>
      match deviconMap.lookup p.1 with
      | some url => acc ++ imgTag url p.1
      | none => acc)
    []

/-- The badge f-string (lines 628-633), appended only when both
`github_user` and `github_repo_name` are truthy (non-empty). -/
def badgesPart (githubUser githubRepoName : Str) : Str :=
  if !githubUser.isEmpty && !githubRepoName.isEmpty then
    "\n![GitHub repo size](https://img.shields.io/github/repo-size/".data ++
      githubUser ++ "/".data ++ githubRepoName ++
      ")\n![GitHub last commit](https://img.shields.io/github/last-commit/".data ++
      githubUser ++ "/".data ++ githubRepoName ++
      ")\n![GitHub top language](https://img.shields.io/github/languages/top/".data ++
      githubUser ++ "/".data ++ githubRepoName ++ ")\n".data
  else []

/-- Segment of the second template f-string (lines 634-648) between the
description and overview interpolations. -/
def sectionsPartA : Str :=
  ("\n\n## Содержание\n\n- [Описание](#описание)\n- [Функциональные возможности](#функциональные-возможности)\n- [Технологический стек](#технологический-стек)\n- [Установка](#установка)\n- [Примеры использования](#примеры-использования)\n- [Лицензия](#лицензия)\n- [Контакты](#контакты)\n\n## Описание\n").data

/-- Tail of the second template f-string (lines 664-693).  The doubled
braces of the f-string source appear here as the single-braced literals
`\x7bproject_structure_content\x7d`, `\x7bcontributing_content\x7d` and
`\x7blicense_content\x7d`. -/
def sectionsPartZ : Str :=
  ("\n\x7bproject_structure_content\x7d\n\n## Вклад\n\x7bcontributing_content\x7d\n\n## Лицензия\n\x7blicense_content\x7d\n\n## Контакты\n- **TELEGRAM**: [4elobrek9](http://t.me/+13262155064)\n- **GitHub**: [4elobrek9](https://github.com/4elobrek9)\n- **Discord**: [qsvPPE9YvJ](https://discord.gg/qsvPPE9YvJ)\n- **TikTok**: [4elobrek9_original](https://www.tiktok.com/@4elobrek9_original)\n\n---\n\n### 🔥 My Stats :\n[![Top Langs](https://github-readme-stats.vercel.app/api/top-langs/?username=4elobre9&layout=compact&theme=vision-friendly-dark)](https://github.com/anuraghazra/github-readme-stats)\n\n---\n\n### ✍️ Blog Posts : \n- [Help me understand this software. I wrote it in delirium](https://github.com/4elobrek9/JARVIS)\n\n---\n\nСпасибо за внимание! Надеюсь, вы найдете этот репозиторий полезным!\n<p align=\"center\"><img src=\"https://media.giphy.com/media/LnQJEfWOk1Zprd6IA/giphy.gif\" width=\"50\"></p>\n").data

/-- The second template f-string (lines 634-693) with its seven
`generated_sections.get(key, default)` interpolations. -/
def sectionsPart (secs : List (Str × Str)) : Str :=
  "\n        \n".data ++
    sectGet secs ("project_description".data)
      ("Краткое описание проекта не сгенерировано.".data) ++
    sectionsPartA ++
    sectGet secs ("project_overview_content".data)
      ("Обзор проекта не сгенерирован.".data) ++
    "\n\n## Функциональные возможности\n".data ++
    sectGet secs ("features_content".data)
      ("Функциональные возможности не сгенерированы.".data) ++
    "\n\n## Технологический стек\n".data ++
    sectGet secs ("technologies_content".data)
      ("Технологический стек не сгенерирован.".data) ++
    "\n\n## Установка\n".data ++
    sectGet secs ("installation_content".data)
      ("Инструкции по установке не сгенерированы.".data) ++
    "\n\n## Примеры использования\n".data ++
    sectGet secs ("usage_examples_content".data)
      ("Примеры использования не сгенерированы.".data) ++
    "\n\n## Структура проекта\n".data ++
    sectGet secs ("project_structure_description".data)
      ("Описание структуры проекта не сгенерировано.".data) ++
    sectionsPartZ

/-- Template `readme_template_content` as assembled by `generate_readme`
(lines 562-693): header, devicon icons, `'\n</p>\n\n'`, optional badges,
then the sections part. -/
def readmeTemplate (repoName : Str) (stats : List (Str × Nat))
    (githubUser githubRepoName : Str) (secs : List (Str × Str)) : Str :=
  headerPart repoName ++ deviconPart stats ++ "\n</p>\n\n".data ++
    badgesPart githubUser githubRepoName ++ sectionsPart secs

/-- The token `"\x7b\x7bproject_structure_content\x7d\x7d"` searched for at
line 723 — a plain string literal, hence doubled braces. -/
def tokStructure : Str := "\x7b\x7bproject_structure_content\x7d\x7d".data

/-- The token `"\x7b\x7bcontributing_content\x7d\x7d"` of line 736. -/
def tokContributing : Str := "\x7b\x7bcontributing_content\x7d\x7d".data

/-- The token `"\x7b\x7blicense_content\x7d\x7d"` of line 747. -/
def tokLicense : Str := "\x7b\x7blicense_content\x7d\x7d".data

/-- The fixed contributing boilerplate of lines 737-745 (a plain string). -/
def contributingText : Str :=
  ("Мы приветствуем вклад в этот проект! Если вы хотите внести свой вклад, пожалуйста, следуйте этим рекомендациям:\n<ol>\n    <li>Форкните репозиторий.</li>\n    <li>Создайте новую ветку для ваших изменений: <code>git checkout -b feature/your-feature-name</code></li>\n    <li>Внесите свои изменения и закоммитьте их: <code>git commit -m \"Add new feature\"</code></li>\n    <li>Отправьте изменения в свой форк: <code>git push origin feature/your-feature-name</code></li>\n    <li>Создайте Pull Request.</li>\n</ol>\nМы всегда рады новым идеям и помощи в развитии проекта!").data

/-- The "found" license sentence of line 751 (an f-string over the matched
descriptor's path and the remote URL). -/
def licenseFoundSentence (path remoteUrl : Str) : Str :=
  "Этот проект лицензирован под лицензией, указанной в файле [`".data ++ path ++
    "`](".data ++ remoteUrl ++ "/blob/main/".data ++ path ++ ").".data

/-- The default license sentence of line 755. -/
def licenseDefaultSentence : Str :=
  "Этот проект лицензирован под лицензией MIT. Подробности можно найти в файле [LICENSE](LICENSE).".data

/-- Method `_postprocess_readme` (lines 715-757): three guarded global
replacements — project structure (723-734), contributing boilerplate
(736-745), and the license sentence, chosen by the first scanned descriptor
whose lowercased path equals `"license"` (747-755). -/
def postprocessReadme (repoDirName : Str) (repo : FsDir) (files : List FileInfo)
    (remoteUrl : Str) (content : Str) : Str :=
  let s1 :=
    if strContains tokStructure content then
      pyReplace tokStructure (projectStructureStr repoDirName repo) content
    else content
  let s2 :=
    if strContains tokContributing s1 then pyReplace tokContributing contributingText s1
    else s1
  if strContains tokLicense s2 then
    match files.find? (fun f => pyLower f.path == "license".data) with
    | some f => pyReplace tokLicense (licenseFoundSentence f.path remoteUrl) s2
    | none => pyReplace tokLicense licenseDefaultSentence s2
  else s2

/-- The final document of one run: `generate_readme` assembles the template
and returns `_postprocess_readme(readme_template_content, repo_info)`
(line 695).  `githubUser`/`githubRepoName` stand for the URL components
parsed at lines 485-493. -/
def renderReadme (repoDirName : Str) (repo : FsDir) (files : List FileInfo)
    (remoteUrl : Str) (repoName : Str) (stats : List (Str × Nat))
    (githubUser githubRepoName : Str) (secs : List (Str × Str)) : Str :=
  postprocessReadme repoDirName repo files remoteUrl
    (readmeTemplate repoName stats githubUser githubRepoName secs)

/-!  ## Concrete repositories, descriptors and oracles used by the theorems -/

/-- Repository with a root `README.md` and a `node_modules` directory that
contains `a.py`: the listing ignores both, the stats walk counts
`README.md`, the tree walk renders `node_modules/a.py`. -/
def repoC1 : FsDir :=
  .node (.file ("README.md".data) (some ("readme".data))
    (.sub ("node_modules".data)
      (.node (.file ("a.py".data) (some ("x".data)) .nil)) .nil))

/-- Repository whose only file is a root `LICENSE`. -/
def repoC2 : FsDir := .node (.file ("LICENSE".data) (some ("MIT".data)) .nil)

/-- The README template `generate_readme` assembles for `repoC2` (no badges:
the remote URL yields no GitHub user/repo), with the fallback sections. -/
def tmplC2 : Str :=
  readmeTemplate ("scan-repo".data) (languageStats repoC2) [] [] (loadSections none)

/-- The document of a full run over `repoC2`. -/
def docC2 : Str :=
  renderReadme ("scan-repo".data) repoC2 (scanRepository repoC2) []
    ("scan-repo".data) (languageStats repoC2) [] [] (loadSections none)

/-- The fixed head of the "found" license sentence (line 751), used to
detect that variant in a document. -/
def licenseFoundMarker : Str :=
  "Этот проект лицензирован под лицензией, указанной в файле".data

/-- Repository whose only file is a root `a.py`. -/
def repoC5 : FsDir := .node (.file ("a.py".data) (some ("x".data)) .nil)

/-- The README template assembled for `repoC5` with the fallback sections. -/
def tmplC5 : Str :=
  readmeTemplate ("demo-repo".data) (languageStats repoC5) [] [] (loadSections none)

/-- The document of a full run over `repoC5`. -/
def docC5 : Str :=
  renderReadme ("demo-repo".data) repoC5 (scanRepository repoC5) []
    ("demo-repo".data) (languageStats repoC5) [] [] (loadSections none)

/-- A synthesis response that is valid JSON but carries only one of the
seven required fields. -/
def partialSecs : List (Str × Str) :=
  [("project_description".data, "Сгенерированное описание X.".data)]

/-- A Python descriptor whose content is 5001 characters: two chunks. -/
def fileC4 : FileInfo :=
  { path := "m.py".data, extension := ".py".data, language := "Python".data,
    content := some (List.replicate 5001 'a'), analysis := none,
    combineMessage := none }

/-- An LLM oracle that answers `"A"` to the chunk prompts of `fileC4`
(which all equal the bare template, since the `\x7b\x7bchunk_content\x7d\x7d`
pattern does not occur in it) and fails (empty string) on any other prompt —
in particular on the consolidation prompt. -/
def llmC4 : Str → Str := fun p => if p = filePrompt fileC4 then "A".data else []

/-- A small analyzable descriptor (one chunk, Python). -/
def fileSmallPy : FileInfo :=
  { path := "m.py".data, extension := ".py".data, language := "Python".data,
    content := some ("ab".data), analysis := none, combineMessage := none }

/-- An LLM oracle that answers `"R"` to everything. -/
def llmConstR : Str → Str := fun _ => "R".data

/-- An LLM oracle that fails (empty string) on every prompt. -/
def llmEmpty : Str → Str := fun _ => []

/-- A descriptor for an unreadable file (content absent). -/
def fileNoContent : FileInfo :=
  { path := "img.bin".data, extension := ".bin".data, language := "Unknown".data,
    content := none, analysis := none, combineMessage := none }

/-- A descriptor for a readable file whose decoded content is empty. -/
def fileEmptyContent : FileInfo :=
  { path := "empty.py".data, extension := ".py".data, language := "Python".data,
    content := some [], analysis := none, combineMessage := none }

/-!  ## Helper lemmas -/

/-- A `pyReplace` scan over a string that does not contain the pattern
copies the string unchanged, for any sufficient fuel. -/
lemma pyReplaceGo_no_occ (t r : Str) :
    ∀ s : Str, ∀ fuel : Nat, strContains t s = false → s.length ≤ fuel →
      pyReplaceGo t r fuel s = s := by
  intro s
  induction s with
  | nil => intro fuel _ _; cases fuel <;> rfl
  | cons x s ih =>
    intro fuel hinf hfuel
    cases fuel with
    | zero => simp at hfuel
    | succ n =>
      have hx : (t.isPrefixOf (x :: s) || strContains t s) = false := by
        simpa [strContains] using hinf
      have h1 : t.isPrefixOf (x :: s) = false := by
        cases hp : t.isPrefixOf (x :: s) <;> simp [hp] at hx ⊢
      have h2 : strContains t s = false := by
        cases hp : strContains t s <;> simp [hp] at hx ⊢
      simp only [pyReplaceGo, h1, Bool.false_and, if_neg]
      simp [ih n h2 (by simpa using Nat.le_of_succ_le_succ hfuel)]

/-- Python `s.replace(t, r)` is the identity when `t` does not occur in `s`. -/
lemma pyReplace_no_occ (t r s : Str) (h : strContains t s = false) :
    pyReplace t r s = s :=
  pyReplaceGo_no_occ t r s s.length h le_rfl

/-- Ceiling-division step: splitting off one chunk of size `c` from a
non-empty string decrements the chunk count. -/
lemma ceil_div_step {c L : Nat} (hc : 0 < c) (hL : 0 < L) :
    (L + c - 1) / c = ((L - c) + c - 1) / c + 1 := by
  rcases le_or_lt L c with h | h
  · have h1 : L - c = 0 := Nat.sub_eq_zero_of_le h
    have h2 : L + c - 1 = (L - 1) + c := by omega
    have h3 : (L - 1) / c = 0 := Nat.div_eq_of_lt (by omega)
    have h4 : (0 + c - 1) / c = 0 := Nat.div_eq_of_lt (by omega)
    rw [h1, h2, Nat.add_div_right _ hc, h3, h4]
  · have h2 : L + c - 1 = (L - 1) + c := by omega
    have h4 : (L - c) + c - 1 = L - 1 := by omega
    rw [h2, h4, Nat.add_div_right _ hc]

lemma chunksOf_nil {c : Nat} (hc : 0 < c) : chunksOf c [] = [] := by
  unfold chunksOf
  have h : (([] : Str).length + c - 1) / c = 0 := Nat.div_eq_of_lt (by simp; omega)
  rw [h]
  rfl

/-- The comprehension `[content[i:i+C] for i in range(0, len, C)]` equals
"first chunk, then the split of the rest". -/
lemma chunksOf_cons {c : Nat} (hc : 0 < c) {l : Str} (hl : l ≠ []) :
    chunksOf c l = l.take c :: chunksOf c (l.drop c) := by
  have hL : 0 < l.length := List.length_pos.mpr hl
  unfold chunksOf
  rw [List.length_drop, ceil_div_step hc hL, List.range_succ_eq_map]
  simp only [List.map, List.map_map, Nat.zero_mul, List.drop_zero]
  congr 1
  apply List.map_congr_left
  intro k _
  simp only [Function.comp_apply, List.drop_drop]
  rw [Nat.succ_mul, Nat.add_comm]

/-- In-order concatenation of the chunks reconstructs the content. -/
lemma chunksOf_flatten {c : Nat} (hc : 0 < c) (l : Str) :
    (chunksOf c l).flatten = l := by
  have main : ∀ n : Nat, ∀ l : Str, l.length ≤ n → (chunksOf c l).flatten = l := by
    intro n
    induction n with
    | zero =>
      intro l h
      have h0 : l = [] := List.length_eq_zero.mp (Nat.le_zero.mp h)
      rw [h0, chunksOf_nil hc]
      rfl
    | succ n ih =>
      intro l h
      by_cases hl : l = []
      · rw [hl, chunksOf_nil hc]; rfl
      · rw [chunksOf_cons hc hl]
        simp only [List.flatten_cons]
        rw [ih (l.drop c) (by
          rw [List.length_drop]
          have : 0 < l.length := List.length_pos.mpr hl
          omega)]
        exact List.take_append_drop c l
  exact main l.length l le_rfl

lemma chunksOf_length (c : Nat) (l : Str) :
    (chunksOf c l).length = (l.length + c - 1) / c := by
  simp [chunksOf]

lemma chunksOf_mem_length {c : Nat} {l : Str} {ch : Str}
    (h : ch ∈ chunksOf c l) : ch.length ≤ c := by
  simp only [chunksOf, List.mem_map, List.mem_range] at h
  obtain ⟨k, _, rfl⟩ := h
  simp [List.length_take]

lemma chunksOf_getD {c : Nat} {l : Str} {k : Nat}
    (h : k < (chunksOf c l).length) :
    (chunksOf c l).getD k [] = (l.drop (k * c)).take c := by
  rw [chunksOf_length] at h
  simp [chunksOf, List.getD, h]

/-- The 5001-character content of `fileC4` splits into one full chunk and a
one-character remainder. -/
lemma chunksOf_fileC4 :
    chunksOf maxChunkSize (List.replicate 5001 'a') =
      [List.replicate 5000 'a', List.replicate 1 'a'] := by
  unfold chunksOf
  rw [List.length_replicate]
  have h2 : (5001 + maxChunkSize - 1) / maxChunkSize = 2 := by norm_num [maxChunkSize]
  have h3 : List.range 2 = [0, 1] := by decide
  rw [h2, h3]
  simp only [List.map, List.drop_replicate, List.take_replicate]
  norm_num [maxChunkSize]

set_option maxRecDepth 200000 in
/-- The doubled-brace pattern `\x7b\x7bchunk_content\x7d\x7d` does not occur
in the per-file prompt template of `fileC4` (whose placeholder is
single-braced, the f-string having collapsed the doubled braces). -/
lemma fileC4_no_chunk_token : strContains chunkContentTok (filePrompt fileC4) = false := by
  decide

/-- Both chunk prompts of `fileC4` are the unmodified template: the
`replace` at line 438 finds no occurrence of its doubled-brace pattern. -/
lemma chunkPrompts_fileC4 :
    chunkPromptsOf fileC4 = [filePrompt fileC4, filePrompt fileC4] := by
  have hc : fileC4.content.getD [] = List.replicate 5001 'a' := rfl
  unfold chunkPromptsOf
  rw [hc, chunksOf_fileC4]
  simp only [List.map]
  rw [pyReplace_no_occ _ _ _ fileC4_no_chunk_token,
    pyReplace_no_occ _ _ _ fileC4_no_chunk_token]

/-- Under `llmC4`, both chunk calls of `fileC4` succeed with `"A"`. -/
lemma chunkResults_fileC4 :
    chunkResultsOf llmC4 fileC4 = ["A".data, "A".data] := by
  unfold chunkResultsOf
  rw [chunkPrompts_fileC4]
  simp only [List.map, llmC4, if_pos rfl, List.filter]
  decide

set_option maxRecDepth 200000 in
/-- The consolidation prompt for the two `"A"` results is not the chunk
prompt (they differ at the tenth character already). -/
lemma combinePrompt_ne_fileC4 :
    ¬ combinePromptOf ["A".data, "A".data] = filePrompt fileC4 := by decide

/-- With `llmC4`, the consolidation call of `fileC4` returns the empty
string and that empty string is stored as the analysis. -/
lemma analysis_fileC4 : (analyzeFile llmC4 fileC4).1.analysis = some [] := by
  have hskip : skipAnalysis fileC4 = false := by decide
  unfold analyzeFile
  rw [hskip, chunkResults_fileC4]
  simp only [Bool.false_eq_true, if_false]
  show some (llmC4 (combinePromptOf ["A".data, "A".data])) = some []
  unfold llmC4
  rw [if_neg combinePrompt_ne_fileC4]

set_option maxRecDepth 200000 in
lemma tmplC2_no_structure_token : strContains tokStructure tmplC2 = false := by decide

set_option maxRecDepth 200000 in
lemma tmplC2_no_contributing_token : strContains tokContributing tmplC2 = false := by decide

set_option maxRecDepth 200000 in
lemma tmplC2_no_license_token : strContains tokLicense tmplC2 = false := by decide

/-- Since none of the doubled-brace tokens occurs in the assembled
template, `_postprocess_readme` returns the `repoC2` document unchanged. -/
lemma docC2_eq_tmplC2 : docC2 = tmplC2 := by
  show postprocessReadme ("scan-repo".data) repoC2 (scanRepository repoC2) [] tmplC2 = tmplC2
  unfold postprocessReadme
  simp only [tmplC2_no_structure_token, tmplC2_no_contributing_token,
    tmplC2_no_license_token, Bool.false_eq_true, if_false]

set_option maxRecDepth 200000 in
lemma tmplC5_no_structure_token : strContains tokStructure tmplC5 = false := by decide

set_option maxRecDepth 200000 in
lemma tmplC5_no_contributing_token : strContains tokContributing tmplC5 = false := by decide

set_option maxRecDepth 200000 in
lemma tmplC5_no_license_token : strContains tokLicense tmplC5 = false := by decide

/-- Since none of the doubled-brace tokens occurs in the assembled
template, `_postprocess_readme` returns the `repoC5` document unchanged. -/
lemma docC5_eq_tmplC5 : docC5 = tmplC5 := by
  show postprocessReadme ("demo-repo".data) repoC5 (scanRepository repoC5) [] tmplC5 = tmplC5
  unfold postprocessReadme
  simp only [tmplC5_no_structure_token, tmplC5_no_contributing_token,
    tmplC5_no_license_token, Bool.false_eq_true, if_false]

/-!  ## Claim theorems -/

/-- C1 (code bug): the three traversals do not apply the same exclusion
sets.  On `repoC1` — a root `README.md` plus `node_modules/a.py` — the
scanner's listing is empty (`README.md` is in `ignore_files`, `node_modules`
is pruned), yet the language-stats walk tallies `README.md` as one Markdown
file (it never consults `ignore_files`), and the directory-tree walk renders
`node_modules/a.py` (it never prunes `ignore_dirs`).  The three path sets
are pairwise different, contradicting the claimed invariant. -/
theorem c1_ignore_sets_diverge :
    scanRepository repoC1 = []
    ∧ talliedPaths repoC1 = ["README.md".data]
    ∧ languageStats repoC1 = [("Markdown".data, 1)]
    ∧ treeFilePaths repoC1 = ["node_modules/a.py".data]
    ∧ ("README.md".data ∈ talliedPaths repoC1
        ∧ "README.md".data ∉ (scanRepository repoC1).map FileInfo.path)
    ∧ ("node_modules/a.py".data ∈ treeFilePaths repoC1
        ∧ "node_modules/a.py".data ∉ talliedPaths repoC1) := by decide

set_option maxRecDepth 200000 in
/-- C2 (code bug): for the repository `repoC2`, which contains exactly a
root file named `LICENSE`, the rendered document carries neither license
sentence variant: the scanner drops `LICENSE` (it is in `ignore_files`), and
the template's license placeholder is single-braced (f-string), so the
doubled-brace guard of `_postprocess_readme` never fires — the raw
placeholder text survives in the output instead of a license sentence. -/
theorem c2_license_branch_never_fires :
    scanRepository repoC2 = []
    ∧ strContains licenseFoundMarker docC2 = false
    ∧ strContains licenseDefaultSentence docC2 = false
    ∧ strContains ("\x7blicense_content\x7d".data) docC2 = true := by
  rw [docC2_eq_tmplC2]
  refine ⟨by decide, by decide, by decide, by decide⟩

set_option maxRecDepth 200000 in
/-- C3 (counterexample): a synthesis response that is valid JSON but misses
six of the seven required keys is used as-is — `json.loads` succeeds, so no
fallback fires — and the renderer then defaults each missing key
individually: the rendered sections mix the generated description with the
render-time default for the overview (not the fallback text), while the
`project_overview_content` key is absent from the section object. -/
theorem c3_partial_sections_counterexample :
    loadSections (some partialSecs) = partialSecs
    ∧ (loadSections (some partialSecs)).lookup ("project_overview_content".data) = none
    ∧ strContains ("Сгенерированное описание X.".data)
        (sectionsPart (loadSections (some partialSecs))) = true
    ∧ strContains ("Обзор проекта не сгенерирован.".data)
        (sectionsPart (loadSections (some partialSecs))) = true
    ∧ strContains ("Не удалось сгенерировать обзор проекта.".data)
        (sectionsPart (loadSections (some partialSecs))) = false := by
  exact ⟨rfl, by decide, by decide, by decide, by decide⟩

/-- C3 (amended): on a response that fails JSON parsing the synthesizer
substitutes the complete seven-key fallback object, every key holding a
non-empty placeholder; but a response that parses is passed through
unchanged, whatever keys it has, so missing keys are defaulted individually
at render time rather than triggering the fallback. -/
theorem c3_schema_fallback :
    loadSections none = fallbackSections
    ∧ (sectionKeys.all fun k =>
        ((fallbackSections.lookup k).map (fun v => !v.isEmpty)).getD false) = true
    ∧ ∀ d : List (Str × Str), loadSections (some d) = d := by
  exact ⟨rfl, by decide, fun d => rfl⟩

/-- C4 (counterexample): `fileC4` is analyzed (not skipped), two chunks
produce non-empty results, the consolidation call is made and fails (the
oracle returns the empty string on the consolidation prompt), and that
empty string is stored as the analysis — refuting "analysis is never left
empty ... for an analyzed file". -/
theorem c4_empty_consolidation_counterexample :
    skipAnalysis fileC4 = false
    ∧ chunkResultsOf llmC4 fileC4 = ["A".data, "A".data]
    ∧ (analyzeFile llmC4 fileC4).1.analysis = some [] :=
  ⟨by decide, chunkResults_fileC4, analysis_fileC4⟩

/-- C4 (amended): for every analyzed file, if more than one chunk produced
a non-empty result then exactly one consolidation call is appended to the
trace, its prompt embeds all non-empty chunk results in original order
(joined by newlines), and its response — possibly the empty string — is
stored as the analysis; with exactly one non-empty result no consolidation
call occurs and that result is stored verbatim; with none, the fixed
failure placeholder is stored. -/
theorem c4_consolidation_rule (llm : Str → Str) (f : FileInfo)
    (h : skipAnalysis f = false) :
    (∀ r1 r2 rs, chunkResultsOf llm f = r1 :: r2 :: rs →
      (analyzeFile llm f).2 = chunkPromptsOf f ++ [combinePromptOf (r1 :: r2 :: rs)]
      ∧ combinePromptOf (r1 :: r2 :: rs) =
          combinePromptHead ++ List.intercalate ("\n".data) (r1 :: r2 :: rs) ++
            combinePromptSuffix
      ∧ (analyzeFile llm f).1.analysis = some (llm (combinePromptOf (r1 :: r2 :: rs))))
    ∧ (∀ r, chunkResultsOf llm f = [r] →
      (analyzeFile llm f).2 = chunkPromptsOf f
      ∧ (analyzeFile llm f).1.analysis = some r)
    ∧ (chunkResultsOf llm f = [] →
      (analyzeFile llm f).2 = chunkPromptsOf f
      ∧ (analyzeFile llm f).1.analysis = some failedAnalysisText) := by
  refine ⟨?_, ?_, ?_⟩
  · intro r1 r2 rs hr
    unfold analyzeFile
    rw [h, hr]
    simp [combinePromptOf]
  · intro r hr
    unfold analyzeFile
    rw [h, hr]
    simp
  · intro hr
    unfold analyzeFile
    rw [h, hr]
    simp

/-- C4 (witness): the consolidation rule applied to the concrete analyzable
descriptor `fileSmallPy` under the always-failing oracle. -/
theorem c4_consolidation_rule_witness :
    skipAnalysis fileSmallPy = false
    ∧ ((∀ r1 r2 rs, chunkResultsOf llmEmpty fileSmallPy = r1 :: r2 :: rs →
        (analyzeFile llmEmpty fileSmallPy).2 =
          chunkPromptsOf fileSmallPy ++ [combinePromptOf (r1 :: r2 :: rs)]
        ∧ combinePromptOf (r1 :: r2 :: rs) =
            combinePromptHead ++ List.intercalate ("\n".data) (r1 :: r2 :: rs) ++
              combinePromptSuffix
        ∧ (analyzeFile llmEmpty fileSmallPy).1.analysis =
            some (llmEmpty (combinePromptOf (r1 :: r2 :: rs))))
      ∧ (∀ r, chunkResultsOf llmEmpty fileSmallPy = [r] →
        (analyzeFile llmEmpty fileSmallPy).2 = chunkPromptsOf fileSmallPy
        ∧ (analyzeFile llmEmpty fileSmallPy).1.analysis = some r)
      ∧ (chunkResultsOf llmEmpty fileSmallPy = [] →
        (analyzeFile llmEmpty fileSmallPy).2 = chunkPromptsOf fileSmallPy
        ∧ (analyzeFile llmEmpty fileSmallPy).1.analysis = some failedAnalysisText)) :=
  ⟨by decide, c4_consolidation_rule llmEmpty fileSmallPy (by decide)⟩

set_option maxRecDepth 200000 in
/-- C5 (code bug): on a full render over `repoC5` the output document is the
template unchanged — `_postprocess_readme` substitutes nothing, because the
doubled-brace tokens it guards on never occur in the assembled template
(whose placeholders are single-braced after f-string evaluation).  The
single-braced placeholders survive unresolved in the output, and none of
the three deferred contents (structure block, contributing boilerplate,
license sentence) is inserted. -/
theorem c5_placeholder_tokens_unresolved :
    docC5 = tmplC5
    ∧ strContains ("\x7bproject_structure_content\x7d".data) docC5 = true
    ∧ strContains ("\x7bcontributing_content\x7d".data) docC5 = true
    ∧ strContains ("\x7blicense_content\x7d".data) docC5 = true
    ∧ strContains tokStructure tmplC5 = false
    ∧ strContains tokContributing tmplC5 = false
    ∧ strContains tokLicense tmplC5 = false
    ∧ strContains ("```".data) docC5 = false
    ∧ strContains ("Форкните репозиторий".data) docC5 = false
    ∧ strContains licenseDefaultSentence docC5 = false := by
  rw [docC5_eq_tmplC5]
  exact ⟨rfl, by decide, by decide, by decide, tmplC5_no_structure_token,
    tmplC5_no_contributing_token, tmplC5_no_license_token, by decide, by decide,
    by decide⟩

/-- C6 (confirmed): for every prompt, options and post oracle, if the HTTP
exchange ends in any failure arm (network error, non-2xx status, body
decode error), `analyze_with_llm` returns the empty string; the embedded
client is a total function, the model of "never raises to its caller". -/
theorem c6_llm_client_failure_returns_empty {σ : Type}
    (post : OllamaRequest σ → HttpResult) (modelName prompt : Str)
    (mime : Option Str) (schema : Option σ)
    (h : isHttpFailure (post (buildOllamaRequest modelName prompt mime schema)) = true) :
    analyzeWithLlm post modelName prompt mime schema = [] := by
  unfold analyzeWithLlm
  cases hp : post (buildOllamaRequest modelName prompt mime schema) <;>
    simp [isHttpFailure, hp] at h ⊢

/-- C6 (witness): the client returns the empty string on a connection
failure for a concrete prompt. -/
theorem c6_llm_client_failure_returns_empty_witness :
    isHttpFailure ((fun _ => HttpResult.netFailure)
      (buildOllamaRequest (σ := Unit) ("saiga".data) ("p".data) none none)) = true
    ∧ analyzeWithLlm (σ := Unit) (fun _ => HttpResult.netFailure)
        ("saiga".data) ("p".data) none none = [] :=
  ⟨by decide, c6_llm_client_failure_returns_empty _ _ _ _ _ (by decide)⟩

/-- C7 (confirmed): for every non-empty content, the chunk split of
`analyze_file` yields exactly `⌈L/C⌉` chunks (at least one), each of length
at most `C = 5000`; the `k`-th chunk is the slice starting at `k*C`
(sequential and non-overlapping), and the in-order concatenation of the
chunks is the original content. -/
theorem c7_chunk_split (content : Str) (h : content ≠ []) :
    0 < (chunksOf maxChunkSize content).length
    ∧ (chunksOf maxChunkSize content).length =
        (content.length + maxChunkSize - 1) / maxChunkSize
    ∧ (∀ ch ∈ chunksOf maxChunkSize content, ch.length ≤ maxChunkSize)
    ∧ (∀ k, k < (chunksOf maxChunkSize content).length →
        (chunksOf maxChunkSize content).getD k [] =
          (content.drop (k * maxChunkSize)).take maxChunkSize)
    ∧ (chunksOf maxChunkSize content).flatten = content := by
  have hc : 0 < maxChunkSize := by norm_num [maxChunkSize]
  refine ⟨?_, chunksOf_length _ _, fun ch hch => chunksOf_mem_length hch,
    fun k hk => chunksOf_getD hk, chunksOf_flatten hc content⟩
  rw [chunksOf_length]
  have hL : 0 < content.length := List.length_pos.mpr h
  have hle : maxChunkSize ≤ content.length + maxChunkSize - 1 := by omega
  have := (Nat.one_le_div_iff hc).mpr hle
  omega

/-- C7 (witness): the chunk split of the two-character content `"ab"`. -/
theorem c7_chunk_split_witness :
    ("ab".data : Str) ≠ []
    ∧ (0 < (chunksOf maxChunkSize ("ab".data)).length
      ∧ (chunksOf maxChunkSize ("ab".data)).length =
          (("ab".data : Str).length + maxChunkSize - 1) / maxChunkSize
      ∧ (∀ ch ∈ chunksOf maxChunkSize ("ab".data), ch.length ≤ maxChunkSize)
      ∧ (∀ k, k < (chunksOf maxChunkSize ("ab".data)).length →
          (chunksOf maxChunkSize ("ab".data)).getD k [] =
            (("ab".data : Str).drop (k * maxChunkSize)).take maxChunkSize)
      ∧ (chunksOf maxChunkSize ("ab".data)).flatten = "ab".data) :=
  ⟨by decide, c7_chunk_split ("ab".data) (by decide)⟩

/-- C8 (confirmed): for every descriptor whose content is absent or whose
language is in the low-value set (Unknown, JSON, YAML, TOML, Markdown),
`analyze_file` makes no model call (empty trace) and returns the descriptor
unchanged — in particular its `analysis` field stays absent. -/
theorem c8_low_value_skip (llm : Str → Str) (f : FileInfo)
    (h : f.content = none ∨ f.language ∈ skipLanguages) :
    analyzeFile llm f = (f, []) := by
  have hs : skipAnalysis f = true := by
    rcases h with h | h
    · simp [skipAnalysis, contentFalsy, h]
    · simp only [skipAnalysis, Bool.or_eq_true]
      exact Or.inr (List.elem_eq_true_of_mem h)
  unfold analyzeFile
  rw [hs]
  rfl

/-- C8 (witness): the skip rule applied to a descriptor with absent
content. -/
theorem c8_low_value_skip_witness :
    (fileNoContent.content = none ∨ fileNoContent.language ∈ skipLanguages)
    ∧ analyzeFile llmEmpty fileNoContent = (fileNoContent, []) :=
  ⟨Or.inl rfl, c8_low_value_skip llmEmpty fileNoContent (Or.inl rfl)⟩

/-- C9 (counterexample): `analysis` is not the only field written after the
scanner emits a descriptor — `analyze_file` also adds the
`_combine_message` key (absent on the scanner's descriptor, present with
value `None` after analysis of the one-chunk `fileSmallPy`). -/
theorem c9_combine_message_key_counterexample :
    fileSmallPy.combineMessage = none
    ∧ (analyzeFile llmConstR fileSmallPy).1.combineMessage = some none
    ∧ (analyzeFile llmConstR fileSmallPy).1.analysis = some ("R".data) := by
  decide

/-- C9 (amended): `analyze_file` never touches `path`, `extension`,
`language` or `content`; the descriptor it returns differs from its input
at most in the `analysis` field and the added `_combine_message` key. -/
theorem c9_descriptor_frame (llm : Str → Str) (f : FileInfo) :
    ∃ a : Option Str, ∃ m : Option (Option Str),
      (analyzeFile llm f).1 =
        { path := f.path, extension := f.extension, language := f.language,
          content := f.content, analysis := a, combineMessage := m } := by
  by_cases hs : skipAnalysis f = true
  · refine ⟨f.analysis, f.combineMessage, ?_⟩
    unfold analyzeFile
    rw [hs]
    simp
  · have hs2 : skipAnalysis f = false := by simpa using hs
    unfold analyzeFile
    rw [hs2]
    rcases hr : chunkResultsOf llm f with _ | ⟨r1, _ | ⟨r2, rest⟩⟩ <;> simp

/-- C10 (confirmed): a readable file whose decoded content is the empty
string is skipped exactly like an unreadable file whose content is absent:
the line-395 test is on content falsiness, so in both cases `analyze_file`
makes no model call and returns the descriptor unchanged, its `analysis`
left absent. -/
theorem c10_empty_content_skip (llm : Str → Str) (f : FileInfo)
    (h : f.content = some []) :
    analyzeFile llm f = (f, [])
    ∧ analyzeFile llm { f with content := none } = ({ f with content := none }, []) := by
  constructor
  · have hs : skipAnalysis f = true := by simp [skipAnalysis, contentFalsy, h]
    unfold analyzeFile
    rw [hs]
    rfl
  · exact c8_low_value_skip llm _ (Or.inl rfl)

/-- C10 (witness): the empty-content rule applied to `fileEmptyContent`. -/
theorem c10_empty_content_skip_witness :
    fileEmptyContent.content = some []
    ∧ (analyzeFile llmEmpty fileEmptyContent = (fileEmptyContent, [])
      ∧ analyzeFile llmEmpty { fileEmptyContent with content := none } =
          ({ fileEmptyContent with content := none }, [])) :=
  ⟨rfl, c10_empty_content_skip llmEmpty fileEmptyContent rfl⟩

end ScanRepo
